import Mathlib

/-!
Verification of the resource-to-node proxy dispatch layer (`ProxyService`)
of this repository: the routing lookup, the retry/backoff policy for
nodes that are still starting, the host rewrite of the forwarded call, the
configuration/TLS lifecycle, and the schema validation of `ProxyConfig`.

The embedding is shallow: each TypeScript function of the source is
translated into a Lean function over explicit state.  Asynchrony is made
explicit: a dispatch returns both the value the caller's promise settles
with (or the fact that it never settles) and a trace of the observable
effects — readiness checks against the routing table, backoff waits, and
outbound backend calls.
-/

namespace KbnProxy

/-- Route lifecycle states.  The source only ever names
`RouteState.Initializing` (readiness is inferred as any other state); the
enumeration is closed with an `Active` state standing for every
non-starting state. -/
inductive RouteState where
  | Initializing
  | Active
deriving DecidableEq, Repr

/-- `RoutingNode` of `cluster_doc`: the record the routing store keeps per
resource — the owning node's address and its route state. -/
structure RoutingNode where
  node : String
  state : RouteState
deriving DecidableEq, Repr

/-- The parts of a WHATWG `URL` the dispatcher touches: `url.pathname` is
read to default the resource, `url.hostname` is rewritten to the owning
node, and `url.toString()` is passed to the transport. -/
structure URLRec where
  protocol : String
  hostname : String
  port : String
  pathname : String
  search : String
deriving DecidableEq, Repr

/-- `url.toString()`: serialisation of the modelled URL components.
`protocol` carries its trailing colon, as in the WHATWG API. -/
def URLRec.toStr (u : URLRec) : String :=
  u.protocol ++ "//" ++ u.hostname ++ (if u.port = "" then "" else ":" ++ u.port)
    ++ u.pathname ++ u.search

/-- `url.hostname = node.node`: the host rewrite performed before
forwarding. -/
def URLRec.setHostname (u : URLRec) (h : String) : URLRec :=
  { u with hostname := h }

/-- The normalized inbound request (`KibanaRequest`): the dispatcher reads
`req.route.method`, `req.url`, `req.headers` and `req.body`. -/
structure KRequest where
  method : String
  url : URLRec
  headers : List (String × String)
  body : String
deriving DecidableEq, Repr

/-- One outbound call issued through `this.wreck.request(method, url, {headers, payload})`:
exactly the four values the source hands to the transport. -/
structure BackendCall where
  method : String
  url : String
  headers : List (String × String)
  body : String
deriving DecidableEq, Repr

/-- How the promise returned by `proxyRequest` settles, as observed by the
original caller:
`errored msg` — the promise rejects with `new Error(msg)`;
`resolved v` — the promise fulfills, with `v = none` standing for the
JavaScript value `undefined` (a bare `resolve()`) and `v = some data` for
the data read from the backend response;
`hang` — the promise never settles (a rejection inside the `setTimeout`
retry callback is unhandled, so the pending promise created for the retry
is neither resolved nor rejected). -/
inductive ProxyResult where
  | errored (msg : String)
  | resolved (value : Option String)
  | hang
deriving DecidableEq, Repr

/-- Observable effects of one `proxyRequest` call: how many times
`getNodeForResource` was consulted (readiness checks / resolution
attempts), the backoff waits performed (each entry a `setTimeout` delay in
milliseconds, in order), and the outbound backend calls issued. -/
structure Trace where
  checks : Nat
  waits : List Nat
  calls : List BackendCall
deriving DecidableEq, Repr

/-- The dispatcher's environment: the configuration fields it reads
(`this.maxRetry`, `this.requestBackoff`), the routing store view at each
successive readiness check (`routeTable k r` is what
`clusterDocClient.getNodeForResource(r)` returns at the check made with
`retryCount = k`, so a node may change state between attempts), and the
transport (`backend m u h b` is the outcome of
`wreck.request(m, u, {headers := h, payload := b})` followed by
`Wreck.read`: `ok data` on success, `error cause` on a connection-level
failure with message `cause`). -/
structure Env where
  maxRetry : Nat
  requestBackoff : Nat
  routeTable : Nat → String → Option RoutingNode
  backend : String → String → List (String × String) → String → Except String String

/-- JavaScript `resource || url.pathname`: an absent or empty-string
(falsy) resource argument falls back to the request URL's pathname. -/
def jsOrElse (resource : Option String) (dflt : String) : String :=
  match resource with
  | none => dflt
  | some s => if s = "" then dflt else s

/-- `ProxyService.proxyRequest(req, resource?, retryCount = 0)`.

Mirrors the source line by line: resolve the effective resource
(`resource || url.pathname`); look the node up; if absent, throw
`No node was found for resource R`; if the node is `Initializing` and
`retryCount <= maxRetry`, wait `requestBackoff` and recurse with
`retryCount + 1` inside a `new Promise(resolve => setTimeout(...))` whose
callback awaits the recursive call and then calls `resolve()` **with no
argument** — so a fulfilled retry makes the caller's promise resolve with
`undefined`, and a rejected retry leaves it pending forever (the rejection
is unhandled inside the timer callback); if `retryCount > maxRetry`, throw
the max-retries error; otherwise rewrite the hostname and issue exactly
one call through the pool, returning the data read on success and
throwing `Unable to complete request to N for R because C` on a transport
failure. -/
def proxyRequest (env : Env) (req : KRequest) (resource : Option String)
    (retryCount : Nat) : ProxyResult × Trace :=
  let r := jsOrElse resource req.url.pathname
  match env.routeTable retryCount r with
  | none =>
      (ProxyResult.errored ("No node was found for resource " ++ r), ⟨1, [], []⟩)
  | some node =>
      if node.state = RouteState.Initializing then
        if _h : retryCount ≤ env.maxRetry then
          let inner := proxyRequest env req (some r) (retryCount + 1)
          let outer : ProxyResult :=
            match inner.1 with
            | ProxyResult.resolved _ => ProxyResult.resolved none
            | _ => ProxyResult.hang
          (outer, ⟨1 + inner.2.checks, env.requestBackoff :: inner.2.waits, inner.2.calls⟩)
        else
          (ProxyResult.errored "maxRetries exceeded and node has not yet initialized",
           ⟨1, [], []⟩)
      else
        let target := req.url.setHostname node.node
        let call : BackendCall := ⟨req.method, target.toStr, req.headers, req.body⟩
        match env.backend req.method target.toStr req.headers req.body with
        | Except.ok data => (ProxyResult.resolved (some data), ⟨1, [], [call]⟩)
        | Except.error cause =>
            (ProxyResult.errored
              ("Unable to complete request to " ++ node.node ++ " for " ++ r
                ++ " because " ++ cause),
             ⟨1, [], [call]⟩)
termination_by env.maxRetry + 1 - retryCount
decreasing_by omega

/-! ### Step lemmas for `proxyRequest`

One lemma per branch of the dispatcher, each unfolding the recursion a
single step under the hypothesis selecting that branch. -/

/-- Unfolding `resource || url.pathname` for an absent resource. -/
theorem jsOrElse_none (p : String) : jsOrElse none p = p := rfl

/-- Unfolding `resource || url.pathname` for a present resource. -/
theorem jsOrElse_some (s p : String) :
    jsOrElse (some s) p = if s = "" then p else s := rfl

/-- Resolving the effective resource is idempotent: the recursive retry
call passes the already-resolved resource back through
`resource || url.pathname` and obtains the same effective resource. -/
theorem jsOrElse_idem (res : Option String) (p : String) :
    jsOrElse (some (jsOrElse res p)) p = jsOrElse res p := by
  cases res <;> simp only [jsOrElse_some, jsOrElse_none] <;> split_ifs <;> simp_all

/-- Branch lemma: no routing entry for the effective resource. -/
theorem proxyRequest_noNode_aux (env : Env) (req : KRequest) (res : Option String)
    (rc : Nat) (h : env.routeTable rc (jsOrElse res req.url.pathname) = none) :
    proxyRequest env req res rc =
      (ProxyResult.errored
        ("No node was found for resource " ++ jsOrElse res req.url.pathname),
       ⟨1, [], []⟩) := by
  rw [proxyRequest.eq_def]
  simp only [h]

/-- Branch lemma: owning node present and not `Initializing` — the
forwarding branch, described for both backend outcomes. -/
theorem proxyRequest_forward_aux (env : Env) (req : KRequest) (res : Option String)
    (rc : Nat) (n : RoutingNode)
    (hn : env.routeTable rc (jsOrElse res req.url.pathname) = some n)
    (hst : n.state ≠ RouteState.Initializing) :
    proxyRequest env req res rc =
      (match env.backend req.method (req.url.setHostname n.node).toStr req.headers req.body with
        | Except.ok data => ProxyResult.resolved (some data)
        | Except.error cause =>
            ProxyResult.errored
              ("Unable to complete request to " ++ n.node ++ " for "
                ++ jsOrElse res req.url.pathname ++ " because " ++ cause),
       ⟨1, [],
        [⟨req.method, (req.url.setHostname n.node).toStr, req.headers, req.body⟩]⟩) := by
  rw [proxyRequest.eq_def]
  simp only [hn]
  rw [if_neg hst]
  cases hb : env.backend req.method (req.url.setHostname n.node).toStr req.headers req.body <;>
    simp [hb]

/-- Branch lemma: owning node `Initializing` with retry budget left — the
dispatch recurses after one backoff wait; a fulfilled retry resolves the
caller with `undefined`, anything else leaves the promise pending. -/
theorem proxyRequest_retryStep_aux (env : Env) (req : KRequest) (res : Option String)
    (rc : Nat) (n : RoutingNode)
    (hn : env.routeTable rc (jsOrElse res req.url.pathname) = some n)
    (hst : n.state = RouteState.Initializing)
    (hrc : rc ≤ env.maxRetry) :
    proxyRequest env req res rc =
      ((match (proxyRequest env req (some (jsOrElse res req.url.pathname)) (rc + 1)).1 with
         | ProxyResult.resolved _ => ProxyResult.resolved none
         | _ => ProxyResult.hang),
       ⟨1 + (proxyRequest env req (some (jsOrElse res req.url.pathname)) (rc + 1)).2.checks,
        env.requestBackoff
          :: (proxyRequest env req (some (jsOrElse res req.url.pathname)) (rc + 1)).2.waits,
        (proxyRequest env req (some (jsOrElse res req.url.pathname)) (rc + 1)).2.calls⟩) := by
  rw [proxyRequest.eq_def]
  simp only [hn]
  rw [if_pos hst, dif_pos hrc]

/-- Branch lemma: owning node `Initializing` with the retry budget spent —
the max-retries error is thrown. -/
theorem proxyRequest_exhausted_aux (env : Env) (req : KRequest) (res : Option String)
    (rc : Nat) (n : RoutingNode)
    (hn : env.routeTable rc (jsOrElse res req.url.pathname) = some n)
    (hst : n.state = RouteState.Initializing)
    (hrc : env.maxRetry < rc) :
    proxyRequest env req res rc =
      (ProxyResult.errored "maxRetries exceeded and node has not yet initialized",
       ⟨1, [], []⟩) := by
  rw [proxyRequest.eq_def]
  simp only [hn]
  rw [if_pos hst, dif_neg (by omega : ¬ rc ≤ env.maxRetry)]

/-- Closed form of a dispatch whose effective resource is owned by a node
that is `Initializing` at every readiness check.  Starting from any
`retryCount` within the loop's reach, the dispatcher makes
`maxRetry + 2 - retryCount` readiness checks, performs
`maxRetry + 1 - retryCount` backoff waits, issues no backend call, and —
except for the innermost frame, which throws the max-retries error into
its detached timer callback — leaves the caller's promise unsettled. -/
theorem proxyRequest_initLoop (env : Env) (req : KRequest) (res : Option String)
    (rc : Nat) (hrc : rc ≤ env.maxRetry + 1)
    (hres : ∀ k, ∃ n, env.routeTable k (jsOrElse res req.url.pathname) = some n
      ∧ n.state = RouteState.Initializing) :
    proxyRequest env req res rc =
      ((if env.maxRetry < rc then
          ProxyResult.errored "maxRetries exceeded and node has not yet initialized"
        else ProxyResult.hang),
       ⟨env.maxRetry + 2 - rc,
        List.replicate (env.maxRetry + 1 - rc) env.requestBackoff, []⟩) := by
  suffices h : ∀ fuel (res : Option String) (rc : Nat), rc ≤ env.maxRetry + 1 →
      env.maxRetry + 1 - rc = fuel →
      (∀ k, ∃ n, env.routeTable k (jsOrElse res req.url.pathname) = some n
        ∧ n.state = RouteState.Initializing) →
      proxyRequest env req res rc =
        ((if env.maxRetry < rc then
            ProxyResult.errored "maxRetries exceeded and node has not yet initialized"
          else ProxyResult.hang),
         ⟨env.maxRetry + 2 - rc,
          List.replicate (env.maxRetry + 1 - rc) env.requestBackoff, []⟩) by
    exact h (env.maxRetry + 1 - rc) res rc hrc rfl hres
  intro fuel
  induction fuel with
  | zero =>
      intro res rc hrc hfuel hres
      obtain ⟨n, hn, hst⟩ := hres rc
      rw [proxyRequest_exhausted_aux env req res rc n hn hst (by omega)]
      have e1 : env.maxRetry + 2 - rc = 1 := by omega
      have e2 : env.maxRetry + 1 - rc = 0 := by omega
      rw [if_pos (by omega : env.maxRetry < rc), e1, e2, List.replicate_zero]
  | succ fuel ih =>
      intro res rc hrc hfuel hres
      have hle : rc ≤ env.maxRetry := by omega
      obtain ⟨n, hn, hst⟩ := hres rc
      rw [proxyRequest_retryStep_aux env req res rc n hn hst hle]
      have hres2 : ∀ k, ∃ n,
          env.routeTable k
            (jsOrElse (some (jsOrElse res req.url.pathname)) req.url.pathname) = some n
          ∧ n.state = RouteState.Initializing := by
        intro k
        rw [jsOrElse_idem]
        exact hres k
      rw [ih (some (jsOrElse res req.url.pathname)) (rc + 1) (by omega) (by omega) hres2]
      have e1 : 1 + (env.maxRetry + 2 - (rc + 1)) = env.maxRetry + 2 - rc := by omega
      have e2 : env.maxRetry + 1 - rc = env.maxRetry + 1 - (rc + 1) + 1 := by omega
      have h1 : ¬ env.maxRetry < rc := by omega
      by_cases hcase : env.maxRetry < rc + 1
      · rw [if_pos hcase, if_neg h1, e1, e2, List.replicate_succ]
      · rw [if_neg hcase, if_neg h1, e1, e2, List.replicate_succ]

/-! ### Concrete scenarios

The concrete request and environments used by the scenario theorems below:
`maxRetry = 2` and `requestBackoff = 50`, as in the documented scenarios. -/

/-- A concrete inbound request: a GET for `/r1` with one header and a
body. -/
def reqDemo : KRequest :=
  ⟨"get", ⟨"https:", "origin.example", "", "/r1", ""⟩,
   [("accept", "application/json")], "reqbody"⟩

/-- Environment whose routing store reports node `n1` as `Initializing`
at every readiness check. -/
def envInitForever : Env :=
  ⟨2, 50, fun _ _ => some ⟨"n1", RouteState.Initializing⟩,
   fun _ _ _ _ => Except.ok "backend-data"⟩

/-- Environment whose owner is `Initializing` at the first readiness
check and `Active` from the second one on; the backend answers
`backend-data`. -/
def envRetryOnce : Env :=
  ⟨2, 50,
   fun k _ =>
     if k = 0 then some ⟨"n1", RouteState.Initializing⟩
     else some ⟨"n1", RouteState.Active⟩,
   fun _ _ _ _ => Except.ok "backend-data"⟩

/-- Environment with an empty routing store. -/
def envNoNode : Env :=
  ⟨2, 50, fun _ _ => none, fun _ _ _ _ => Except.ok "backend-data"⟩

/-- Environment whose owner `n5` is `Active` from the start; the backend
answers `resp5`. -/
def envActive : Env :=
  ⟨2, 50, fun _ _ => some ⟨"n5", RouteState.Active⟩,
   fun _ _ _ _ => Except.ok "resp5"⟩

/-- Environment whose owner `n6` is `Active` but whose transport fails
with `socket hang up`. -/
def envTransportFail : Env :=
  ⟨2, 50, fun _ _ => some ⟨"n6", RouteState.Active⟩,
   fun _ _ _ _ => Except.error "socket hang up"⟩

/-! ### Claim theorems -/

/-- C1, counterexample: with `maxRetry = 2` and an owner that is
`Initializing` at every check, the call starting at `retryCount = 0`
makes 4 readiness checks (not 3) separated by 3 backoff waits (not 2),
and the caller's promise never settles with the max-retries error (the
error is thrown inside the detached timer callback), while still zero
backend calls are made. -/
theorem proxyRequest_budget_counterexample :
    proxyRequest envInitForever reqDemo (some "r1") 0 =
      (ProxyResult.hang, ⟨4, [50, 50, 50], []⟩)
    ∧ ¬ ((proxyRequest envInitForever reqDemo (some "r1") 0).2.checks = 3
          ∧ (proxyRequest envInitForever reqDemo (some "r1") 0).2.waits.length = 2)
    ∧ (∀ msg, (proxyRequest envInitForever reqDemo (some "r1") 0).1
          ≠ ProxyResult.errored msg) := by
  have h := proxyRequest_initLoop envInitForever reqDemo (some "r1") 0 (by omega)
    (fun k => ⟨⟨"n1", RouteState.Initializing⟩, rfl, rfl⟩)
  rw [h]
  refine ⟨by decide, by decide, ?_⟩
  intro msg
  simp

/-- C1 (amended): when the owning node of the effective resource is
`Initializing` at every readiness check, a dispatch starting at
`retryCount = 0` makes exactly `maxRetry + 2` readiness checks
(`retryCount` runs from `0` to `maxRetry + 1`, since the guard is
`retryCount <= maxRetry`), performs `maxRetry + 1` backoff waits of
`requestBackoff` each, issues zero backend calls, and the caller's
promise never settles: the final attempt's max-retries-exceeded error is
thrown inside the detached `setTimeout` callback and is not funnelled to
the caller. -/
theorem proxyRequest_retry_budget (env : Env) (req : KRequest) (res : Option String)
    (hres : ∀ k, ∃ n, env.routeTable k (jsOrElse res req.url.pathname) = some n
      ∧ n.state = RouteState.Initializing) :
    proxyRequest env req res 0 =
      (ProxyResult.hang,
       ⟨env.maxRetry + 2, List.replicate (env.maxRetry + 1) env.requestBackoff, []⟩) := by
  have h := proxyRequest_initLoop env req res 0 (by omega) hres
  simpa using h

/-- C1 witness: the amended budget at `maxRetry = 2`, `requestBackoff = 50`:
4 readiness checks, 3 waits of 50 ms, no backend call, promise pending. -/
theorem proxyRequest_retry_budget_witness :
    proxyRequest envInitForever reqDemo (some "r1") 0 =
      (ProxyResult.hang, ⟨4, [50, 50, 50], []⟩) := by
  have h := proxyRequest_retry_budget envInitForever reqDemo (some "r1")
    (fun k => ⟨⟨"n1", RouteState.Initializing⟩, rfl, rfl⟩)
  exact h.trans (by decide)

/-- C2 (code bug): a dispatch that retries once while the node starts and
then forwards successfully issues the backend call and receives
`backend-data`, but the value the original caller's promise resolves with
is `undefined` (`resolved none`): the retry callback awaits the retried
attempt and then calls `resolve()` with no argument, discarding the
backend's response instead of passing it through. -/
theorem proxyRequest_retried_response_dropped :
    proxyRequest envRetryOnce reqDemo (some "r1") 0 =
      (ProxyResult.resolved none,
       ⟨2, [50],
        [⟨"get", "https://n1/r1", [("accept", "application/json")], "reqbody"⟩]⟩)
    ∧ ProxyResult.resolved (none : Option String)
        ≠ ProxyResult.resolved (some "backend-data") := by
  refine ⟨?_, by decide⟩
  rw [proxyRequest_retryStep_aux envRetryOnce reqDemo (some "r1") 0
    ⟨"n1", RouteState.Initializing⟩ rfl rfl (by omega)]
  rw [proxyRequest_forward_aux envRetryOnce reqDemo
    (some (jsOrElse (some "r1") reqDemo.url.pathname)) 1
    ⟨"n1", RouteState.Active⟩ rfl (by decide)]
  decide

/-- C4: when the routing store has no entry for the effective resource,
the dispatch fails at once with the no-node error after a single
resolution attempt, with no wait and no backend call. -/
theorem proxyRequest_noNode (env : Env) (req : KRequest) (res : Option String)
    (rc : Nat) (h : env.routeTable rc (jsOrElse res req.url.pathname) = none) :
    proxyRequest env req res rc =
      (ProxyResult.errored
        ("No node was found for resource " ++ jsOrElse res req.url.pathname),
       ⟨1, [], []⟩) :=
  proxyRequest_noNode_aux env req res rc h

/-- C4 witness: the empty routing store rejects a request for `/r1`
immediately, with zero backend calls and zero retries. -/
theorem proxyRequest_noNode_witness :
    proxyRequest envNoNode reqDemo none 0 =
      (ProxyResult.errored "No node was found for resource /r1", ⟨1, [], []⟩) := by
  have h := proxyRequest_noNode envNoNode reqDemo none 0 rfl
  exact h.trans (by decide)

/-- C5: when the resolved owning node is not `Initializing`, exactly one
outbound call is issued, with the original method, headers and body and
with the request URL's hostname rewritten to the owning node's address;
on backend success the caller receives the data read from the response. -/
theorem proxyRequest_forward_once (env : Env) (req : KRequest) (res : Option String)
    (rc : Nat) (n : RoutingNode)
    (hn : env.routeTable rc (jsOrElse res req.url.pathname) = some n)
    (hst : n.state ≠ RouteState.Initializing) :
    (proxyRequest env req res rc).2 =
      ⟨1, [],
       [⟨req.method, (req.url.setHostname n.node).toStr, req.headers, req.body⟩]⟩
    ∧ ∀ d, env.backend req.method (req.url.setHostname n.node).toStr req.headers req.body
        = Except.ok d →
      (proxyRequest env req res rc).1 = ProxyResult.resolved (some d) := by
  have h := proxyRequest_forward_aux env req res rc n hn hst
  constructor
  · rw [h]
  · intro d hd
    rw [h]
    simp [hd]

/-- C5 witness: the active owner `n5` receives exactly one call at the
rewritten URL with the original method, headers and body, and the caller
gets the backend's response. -/
theorem proxyRequest_forward_once_witness :
    (proxyRequest envActive reqDemo none 0).2 =
      ⟨1, [],
       [⟨"get", "https://n5/r1", [("accept", "application/json")], "reqbody"⟩]⟩
    ∧ (proxyRequest envActive reqDemo none 0).1 = ProxyResult.resolved (some "resp5") := by
  have h := proxyRequest_forward_once envActive reqDemo none 0
    ⟨"n5", RouteState.Active⟩ rfl (by decide)
  exact ⟨h.1.trans (by decide), h.2 "resp5" rfl⟩

/-- C6: a transport-level failure of the forwarded call surfaces an error
naming the target node, the resource and the underlying cause, after a
single resolution attempt with no retry (no wait) and exactly the one
failed call. -/
theorem proxyRequest_transport_failure (env : Env) (req : KRequest) (res : Option String)
    (rc : Nat) (n : RoutingNode) (cause : String)
    (hn : env.routeTable rc (jsOrElse res req.url.pathname) = some n)
    (hst : n.state ≠ RouteState.Initializing)
    (hb : env.backend req.method (req.url.setHostname n.node).toStr req.headers req.body
      = Except.error cause) :
    proxyRequest env req res rc =
      (ProxyResult.errored
        ("Unable to complete request to " ++ n.node ++ " for "
          ++ jsOrElse res req.url.pathname ++ " because " ++ cause),
       ⟨1, [],
        [⟨req.method, (req.url.setHostname n.node).toStr, req.headers, req.body⟩]⟩) := by
  have h := proxyRequest_forward_aux env req res rc n hn hst
  rw [h, hb]

/-- C6 witness: a connection failure against node `n6` produces the error
message with node, resource and cause, with no retry. -/
theorem proxyRequest_transport_failure_witness :
    proxyRequest envTransportFail reqDemo (some "res6") 0 =
      (ProxyResult.errored
        "Unable to complete request to n6 for res6 because socket hang up",
       ⟨1, [],
        [⟨"get", "https://n6/r1", [("accept", "application/json")], "reqbody"⟩]⟩) := by
  have h := proxyRequest_transport_failure envTransportFail reqDemo (some "res6") 0
    ⟨"n6", RouteState.Active⟩ "socket hang up" rfl (by decide) rfl
  exact h.trans (by decide)

/-- C10: an empty-string resource argument behaves exactly like an absent
one — the request URL's pathname becomes the effective resource. -/
theorem proxyRequest_empty_resource (env : Env) (req : KRequest) (rc : Nat) :
    proxyRequest env req (some "") rc = proxyRequest env req none rc := by
  rw [proxyRequest.eq_def]
  conv_rhs => rw [proxyRequest.eq_def]
  simp [jsOrElse]

/-! ### Service lifecycle: configuration subscription, TLS reload, stop

`ProxyService.setup` subscribes to the configuration stream with a handler
that only calls `setConfig` (port, maxRetry, requestBackoff); it then
awaits the first configuration, calls `setConfig` with it, and calls
`configureSSL` with that same first configuration — once.  Nothing ever
calls `configureSSL` again, so later emissions update only the three
numeric fields. -/

/-- The resolved `ProxyPluginType` configuration record validated by
`ProxyConfig.schema`. -/
structure ProxyPluginConfig where
  updateInterval : Nat
  timeoutThreshold : Nat
  port : Nat
  maxRetry : Nat
  requestBackoff : Nat
  cert : String
  key : String
  ca : String
  cipherSuites : List String
  supportedProtocols : List String
deriving DecidableEq, Repr

/-- The certificate / private key / CA contents `configureSSL` reads from
disk and installs into the outbound `HTTPSAgent`. -/
structure TlsMaterial where
  cert : String
  key : String
  ca : String
deriving DecidableEq, Repr

/-- The mutable fields of `ProxyService` the lifecycle touches: the three
numeric fields written by `setConfig`, and the credential set the current
outbound TLS agent was built with (`none` until `configureSSL` has run —
the initial agent is keep-alive only, with no client certificate). -/
structure ServiceState where
  port : Nat
  maxRetry : Nat
  requestBackoff : Nat
  httpsAgentMaterial : Option TlsMaterial
deriving DecidableEq, Repr

/-- The service state as constructed: all numeric fields 0, no TLS
material loaded. -/
def initialServiceState : ServiceState := ⟨0, 0, 0, none⟩

/-- The file reads of `configureSSL`:
`Promise.all([readFileAsync(cert), readFileAsync(key), readFileAsync(ca)])`
against a file system `fs`; any missing file rejects the whole load. -/
def readTlsMaterial (fs : String → Option String) (config : ProxyPluginConfig) :
    Except String TlsMaterial :=
  match fs config.cert, fs config.key, fs config.ca with
  | some c, some k, some a => Except.ok ⟨c, k, a⟩
  | _, _, _ => Except.error "ENOENT"

/-- `ProxyService.setConfig`: writes `port`, `maxRetry` and
`requestBackoff` from the snapshot; nothing else. -/
def ProxyService.setConfig (s : ServiceState) (config : ProxyPluginConfig) : ServiceState :=
  { s with
    port := config.port
    maxRetry := config.maxRetry
    requestBackoff := config.requestBackoff }

/-- The handler `setup` registers on the configuration stream:
`config => this.setConfig(config)` — it does not touch TLS. -/
def configEmission (s : ServiceState) (config : ProxyPluginConfig) : ServiceState :=
  ProxyService.setConfig s config

/-- `ProxyService.configureSSL`: reads the three credential files and, on
success, replaces the outbound TLS agent with one built from them. -/
def configureSSL (fs : String → Option String) (s : ServiceState)
    (config : ProxyPluginConfig) : Except String ServiceState :=
  match readTlsMaterial fs config with
  | Except.ok m => Except.ok { s with httpsAgentMaterial := some m }
  | Except.error e => Except.error e

/-- `ProxyService.setup` with respect to configuration: the subscription
delivers the current (first) configuration to the handler, `setConfig` is
called again with the awaited first configuration, and `configureSSL`
runs exactly once, with that first configuration. -/
def setupService (fs : String → Option String) (first : ProxyPluginConfig) :
    Except String ServiceState :=
  let s1 := configEmission initialServiceState first
  let s2 := ProxyService.setConfig s1 first
  configureSSL fs s2 first

/-- Later configuration emissions: each one runs the subscription handler. -/
def applyEmissions (s : ServiceState) (updates : List ProxyPluginConfig) : ServiceState :=
  updates.foldl configEmission s

/-- First concrete configuration snapshot (credential paths `*1.pem`). -/
def cfgFirst : ProxyPluginConfig :=
  ⟨5000, 1000, 5601, 2, 50, "cert1.pem", "key1.pem", "ca1.pem",
   ["AES128-SHA"], ["TLSv1.2"]⟩

/-- Second concrete configuration snapshot: different port, retry policy
and credential paths (`*2.pem`). -/
def cfgSecond : ProxyPluginConfig :=
  ⟨5000, 1000, 9200, 7, 99, "cert2.pem", "key2.pem", "ca2.pem",
   ["AES128-SHA"], ["TLSv1.2"]⟩

/-- A file system holding both credential triples. -/
def fsDemo : String → Option String := fun p =>
  if p = "cert1.pem" then some "CERT1"
  else if p = "key1.pem" then some "KEY1"
  else if p = "ca1.pem" then some "CA1"
  else if p = "cert2.pem" then some "CERT2"
  else if p = "key2.pem" then some "KEY2"
  else if p = "ca2.pem" then some "CA2"
  else none

/-- C3, counterexample: after setup with `cfgFirst` and a later emission
of `cfgSecond`, the numeric fields hold `cfgSecond`'s values but the
outbound TLS agent still holds the credentials read from `cfgFirst`'s
paths, even though `cfgSecond`'s credentials are present and readable —
the emission did not reload TLS credentials. -/
theorem tls_not_reloaded_counterexample :
    (setupService fsDemo cfgFirst).map (fun s => applyEmissions s [cfgSecond]) =
      Except.ok
        { port := 9200, maxRetry := 7, requestBackoff := 99,
          httpsAgentMaterial := some ⟨"CERT1", "KEY1", "CA1"⟩ }
    ∧ some (⟨"CERT1", "KEY1", "CA1"⟩ : TlsMaterial)
        ≠ some (⟨"CERT2", "KEY2", "CA2"⟩ : TlsMaterial)
    ∧ readTlsMaterial fsDemo cfgSecond = Except.ok ⟨"CERT2", "KEY2", "CA2"⟩ := by
  refine ⟨rfl, by decide, rfl⟩

/-- C3 (amended): every emitted configuration snapshot applies
`port`/`maxRetry`/`requestBackoff` but leaves the TLS credentials
untouched — over any sequence of emissions the agent's material is
unchanged; the credentials are loaded exactly once, during setup, from
the first configuration's paths. -/
theorem config_emission_no_tls_reload (s : ServiceState) (c : ProxyPluginConfig) :
    (configEmission s c).port = c.port
    ∧ (configEmission s c).maxRetry = c.maxRetry
    ∧ (configEmission s c).requestBackoff = c.requestBackoff
    ∧ (configEmission s c).httpsAgentMaterial = s.httpsAgentMaterial
    ∧ (∀ updates, (applyEmissions s updates).httpsAgentMaterial = s.httpsAgentMaterial)
    ∧ (∀ fs first s2, setupService fs first = Except.ok s2 →
        ∃ m, readTlsMaterial fs first = Except.ok m
          ∧ s2.httpsAgentMaterial = some m) := by
  refine ⟨rfl, rfl, rfl, rfl, ?_, ?_⟩
  · intro updates
    induction updates generalizing s with
    | nil => rfl
    | cons u us ih => exact ih (configEmission s u)
  · intro fs first s2 h
    unfold setupService configureSSL at h
    cases hm : readTlsMaterial fs first with
    | ok m =>
        rw [hm] at h
        refine ⟨m, rfl, ?_⟩
        cases h
        rfl
    | error e =>
        rw [hm] at h
        cases h

/-! ### Shutdown -/

/-- The two externally observable actions of `ProxyService.stop`. -/
inductive StopAction where
  | clusterDocClientStop
  | configUnsubscribe
deriving DecidableEq, Repr

/-- The state `stop` touches: whether the configuration subscription is
live (`configSubscription !== undefined`) and whether the routing-store
client has been stopped. -/
structure LifecycleState where
  configSubscription : Bool
  docClientStopped : Bool
deriving DecidableEq, Repr

/-- `ProxyService.stop`: awaits `clusterDocClient.stop()` first; then, if
`configSubscription` is `undefined`, returns; otherwise unsubscribes and
clears it.  Returns the new state and the actions in execution order. -/
def stopService (s : LifecycleState) : LifecycleState × List StopAction :=
  let s1 : LifecycleState := { s with docClientStopped := true }
  if s1.configSubscription then
    ({ s1 with configSubscription := false },
     [StopAction.clusterDocClientStop, StopAction.configUnsubscribe])
  else
    (s1, [StopAction.clusterDocClientStop])

/-- C9, counterexample: from a running service, `stop` performs the
routing-store stop first and the configuration unsubscribe second — not
the claimed unsubscribe-then-stop order. -/
theorem stop_order_counterexample :
    (stopService ⟨true, false⟩).2 =
      [StopAction.clusterDocClientStop, StopAction.configUnsubscribe]
    ∧ (stopService ⟨true, false⟩).2 ≠
      [StopAction.configUnsubscribe, StopAction.clusterDocClientStop] := by
  decide

/-- C9 (amended): `stop` first stops the routing-store connection and then
unsubscribes from the configuration stream, in that order; a second call
finds no subscription, performs only another routing-store stop, and
leaves the state exactly as the first call left it. -/
theorem stop_doc_first_and_idempotent (s : LifecycleState)
    (h : s.configSubscription = true) :
    (stopService s).2 =
      [StopAction.clusterDocClientStop, StopAction.configUnsubscribe]
    ∧ (stopService s).1 = ⟨false, true⟩
    ∧ stopService (stopService s).1 =
        (⟨false, true⟩, [StopAction.clusterDocClientStop]) := by
  simp [stopService, h]

/-- C9 witness: the amended order and idempotence at the concrete running
state. -/
theorem stop_doc_first_and_idempotent_witness :
    (stopService ⟨true, false⟩).2 =
      [StopAction.clusterDocClientStop, StopAction.configUnsubscribe]
    ∧ (stopService ⟨true, false⟩).1 = ⟨false, true⟩
    ∧ stopService (stopService ⟨true, false⟩).1 =
        (⟨false, true⟩, [StopAction.clusterDocClientStop]) :=
  stop_doc_first_and_idempotent ⟨true, false⟩ rfl

/-! ### Configuration schema: supportedProtocols and cipherSuites -/

/-- The fixed allow-list of the `schema.oneOf` in `ProxyConfig`: the three
TLS version literals. -/
def supportedProtocolLabels : List String := ["TLSv1", "TLSv1.1", "TLSv1.2"]

/-- The `defaultValue` of `supportedProtocols`. -/
def defaultSupportedProtocols : List String := ["TLSv1.1", "TLSv1.2"]

/-- The `supportedProtocols` declaration of `ProxyConfig.schema`:
`schema.arrayOf(schema.oneOf([literal TLSv1, literal TLSv1.1, literal TLSv1.2]), {defaultValue: [TLSv1.1, TLSv1.2], minSize: 1})`.
An absent value takes the default; a present value is rejected if shorter
than `minSize` or if any element is outside the allow-list, and is
returned unchanged otherwise. -/
def validateSupportedProtocols (value : Option (List String)) :
    Except String (List String) :=
  match value with
  | none => Except.ok defaultSupportedProtocols
  | some xs =>
      if xs.length < 1 then
        Except.error "array size is [0], but cannot be smaller than [1]"
      else if _h : ∀ x ∈ xs, x ∈ supportedProtocolLabels then Except.ok xs
      else Except.error "types that failed validation"

/-- Unfolding `validateSupportedProtocols` at a present value. -/
theorem validateSupportedProtocols_some (xs : List String) :
    validateSupportedProtocols (some xs) =
      if xs.length < 1 then
        Except.error "array size is [0], but cannot be smaller than [1]"
      else if _h : ∀ x ∈ xs, x ∈ supportedProtocolLabels then Except.ok xs
      else Except.error "types that failed validation" := rfl

/-- C7: validation accepts exactly the non-empty lists drawn from the
fixed allow-list (and returns them unchanged — anything else is an error,
never silently dropped); an omitted value defaults to
`[TLSv1.1, TLSv1.2]`, two versions from the allow-list. -/
theorem supportedProtocols_allowlist :
    (∀ xs, validateSupportedProtocols (some xs) = Except.ok xs ↔
        (xs ≠ [] ∧ ∀ x ∈ xs, x ∈ supportedProtocolLabels))
    ∧ (∀ xs ys, validateSupportedProtocols (some xs) = Except.ok ys → ys = xs)
    ∧ validateSupportedProtocols none = Except.ok ["TLSv1.1", "TLSv1.2"]
    ∧ supportedProtocolLabels = ["TLSv1", "TLSv1.1", "TLSv1.2"]
    ∧ 2 ≤ defaultSupportedProtocols.length
    ∧ ∀ x ∈ defaultSupportedProtocols, x ∈ supportedProtocolLabels := by
  refine ⟨?_, ?_, rfl, rfl, by decide, by decide⟩
  · intro xs
    rw [validateSupportedProtocols_some]
    split_ifs with h1 h2
    · constructor
      · intro h
        exact h.elim
      · rintro ⟨hne, _⟩
        have := List.length_pos.mpr hne
        omega
    · constructor
      · intro _
        refine ⟨?_, h2⟩
        intro hnil
        rw [hnil] at h1
        simp at h1
      · intro _
        rfl
    · constructor
      · intro h
        exact h.elim
      · rintro ⟨_, hmem⟩
        exact absurd hmem h2
  · intro xs ys h
    rw [validateSupportedProtocols_some] at h
    split_ifs at h
    injection h with h
    exact h.symm

/-- String-valued members of Node's `crypto.constants` object, as
property access: only `defaultCoreCipherList` exists (holding the
platform's default cipher list); any other property name — including the
misspelling in the source — reads as `undefined`. -/
def nodeCryptoStringConstant (platformDefaultCipherList : String) :
    String → Option String :=
  fun name =>
    if name = "defaultCoreCipherList" then some platformDefaultCipherList else none

/-- The `defaultValue` expression of `cipherSuites` in `ProxyConfig`:
`cryptoConstants.defulatCoreCipherList.split(':')` — note the misspelled
property name in the source.  Reading it yields `undefined`, and calling
`split` on `undefined` throws a `TypeError`. -/
def cipherSuitesDefaultValue (platformDefaultCipherList : String) :
    Except String (List String) :=
  match nodeCryptoStringConstant platformDefaultCipherList "defulatCoreCipherList" with
  | some s => Except.ok (s.splitOn ":")
  | none => Except.error "TypeError: cannot read property split of undefined"

/-- C8: for every platform cipher-list string, computing the
`cipherSuites` default throws instead of producing the platform list
split on colons, because the source reads the misspelled property
`defulatCoreCipherList` (which is `undefined`); the correctly spelled
property would have held the platform list. -/
theorem cipherSuites_default_typo (platformDefaultCipherList : String) :
    cipherSuitesDefaultValue platformDefaultCipherList
      = Except.error "TypeError: cannot read property split of undefined"
    ∧ cipherSuitesDefaultValue platformDefaultCipherList
        ≠ Except.ok (platformDefaultCipherList.splitOn ":")
    ∧ nodeCryptoStringConstant platformDefaultCipherList "defaultCoreCipherList"
        = some platformDefaultCipherList := by
  have hc : nodeCryptoStringConstant platformDefaultCipherList "defulatCoreCipherList"
      = none := by
    unfold nodeCryptoStringConstant
    rw [if_neg (by decide)]
  refine ⟨?_, ?_, ?_⟩
  · unfold cipherSuitesDefaultValue
    rw [hc]
  · unfold cipherSuitesDefaultValue
    rw [hc]
    simp
  · unfold nodeCryptoStringConstant
    rw [if_pos rfl]

end KbnProxy
